import Mathlib

set_option maxRecDepth 20000

/-!
Verification development for the ESPA product formatter format-conversion
library, covering convert_hdf_to_old_hdf.c and convert_espa_to_gtif.c.

C doubles are modelled as exact rationals, C ints as Int, C strings as
Lean strings (or lists of characters where buffer manipulation is the
point).  External collaborators (HDF writer primitives, the shell call to
gdal_translate, the XML parser) are modelled as always succeeding; the
functions below reproduce the metadata derivation, error checks and
control flow of the source.
-/

/-- Modelled from the spec: the integer sentinel ESPA_INT_META_FILL from the
metadata header, which is not part of the provided sources.  The spec only
says each optional numeric field uses a reserved sentinel value. -/
def ESPA_INT_META_FILL : Int := -3333

/-- Modelled from the spec: the floating-point sentinel ESPA_FLOAT_META_FILL
from the metadata header, which is not part of the provided sources. -/
def ESPA_FLOAT_META_FILL : ℚ := -3333

/-- Modelled from the spec: the tolerance ESPA_EPSILON used for
floating-point sentinel comparison; the header defining it is not part of
the provided sources. -/
def ESPA_EPSILON : ℚ := 1 / 100000

/-- Modelled from the spec: the string sentinel ESPA_STRING_META_FILL from
the metadata header, which is not part of the provided sources. -/
def ESPA_STRING_META_FILL : String := "undefined"

/-- Modelled from the spec: the common string buffer size STR_SIZE used for
the per-line temporary buffer; the header defining it is not part of the
provided sources. -/
def STR_SIZE : Nat := 1024

/-- Size of the local message buffer in write_sds_attributes
(char message[5000]). -/
def MSG_SIZE : Nat := 5000

/-- The ESPA band data types, from the switch in create_hdf_metadata.  The
constructor espa_other stands for any enumerator outside the eight cases
handled by the switch (its default branch). -/
inductive EspaDataType where
  | espa_int8
  | espa_uint8
  | espa_int16
  | espa_uint16
  | espa_int32
  | espa_uint32
  | espa_float32
  | espa_float64
  | espa_other
  deriving DecidableEq, Repr

/-- The HDF data types the switch in create_hdf_metadata can produce. -/
inductive HdfDataType where
  | dfnt_int8
  | dfnt_uint8
  | dfnt_int16
  | dfnt_uint16
  | dfnt_int32
  | dfnt_uint32
  | dfnt_float32
  | dfnt_float64
  deriving DecidableEq, Repr

/-- Band metadata (Espa_band_meta_t), restricted to the fields the two
source files read.  class_values entries are (class, description) pairs. -/
structure EspaBandMeta where
  name : String
  file_name : String
  nlines : Int
  nsamps : Int
  data_type : EspaDataType
  fill_value : Int
  saturate_value : Int
  scale_factor : ℚ
  add_offset : ℚ
  calibrated_nt : ℚ
  valid_range : Int × Int
  nbits : Int
  bitmap_description : List String
  nclass : Int
  class_values : List (Int × String)
  app_version : String
  toa_gain : ℚ
  toa_bias : ℚ
  production_date : String
  long_name : String
  data_units : String
  deriving DecidableEq, Repr

/-- A band with empty and zero fields, used as the out-of-range default for
indexed access into the band array (the C code indexes band[i] at fixed
instrument-specific indices without a bounds check; the claims only concern
fully populated band lists where the default is never reached). -/
def defaultBand : EspaBandMeta where
  name := ""
  file_name := ""
  nlines := 0
  nsamps := 0
  data_type := .espa_other
  fill_value := 0
  saturate_value := 0
  scale_factor := 0
  add_offset := 0
  calibrated_nt := 0
  valid_range := (0, 0)
  nbits := 0
  bitmap_description := []
  nclass := 0
  class_values := []
  app_version := ""
  toa_gain := 0
  toa_bias := 0
  production_date := ""
  long_name := ""
  data_units := ""

/-- The C library function fabs, on exact rationals. -/
def fabs (x : ℚ) : ℚ := if x < 0 then -x else x

/-- The (gain, bias) pair of band i, as read by write_global_attributes via
xml_metadata band[i] toa_gain / toa_bias. -/
def gb (bands : List EspaBandMeta) (i : Nat) : ℚ × ℚ :=
  ((bands.getD i defaultBand).toa_gain, (bands.getD i defaultBand).toa_bias)

/-- The existence check for calibration data in write_global_attributes:
band 0 gain and bias must both differ from the float sentinel by more than
ESPA_EPSILON ("Use band 1 for this check.  If it does not exist then assume
none exist."). -/
def band0CalExists (bands : List EspaBandMeta) : Prop :=
  ESPA_EPSILON < fabs ((bands.getD 0 defaultBand).toa_gain - ESPA_FLOAT_META_FILL) ∧
  ESPA_EPSILON < fabs ((bands.getD 0 defaultBand).toa_bias - ESPA_FLOAT_META_FILL)

instance (bands : List EspaBandMeta) : Decidable (band0CalExists bands) := by
  unfold band0CalExists; infer_instance

/-- Loop indices of the TM branch of write_global_attributes
(for i = 0 to 6). -/
def tmLoopIdx : List Nat := [0, 1, 2, 3, 4, 5, 6]

/-- Loop indices of the ETM branch of write_global_attributes
(for i = 0 to 7, pan skipped). -/
def etmLoopIdx : List Nat := [0, 1, 2, 3, 4, 5, 6, 7]

/-- Loop indices of the OLI_TIRS branch of write_global_attributes
(for i = 0 to 10). -/
def oliLoopIdx : List Nat := [0, 1, 2, 3, 4, 5, 6, 7, 8, 9, 10]

/-- The reflective and thermal (gain, bias) vectors computed by the
instrument dispatch in write_global_attributes (lines 261-375): TM keeps
index 5 thermal and the rest reflective over bands 0-6; an instrument whose
first three characters are ETM keeps indices 5 and 6 thermal over bands
0-7; OLI_TIRS keeps indices 9 and 10 thermal and skips index 7 over bands
0-10.  Each branch is guarded by the band 0 existence check; any other
instrument leaves both vectors empty. -/
def reflThmPairs (inst : String) (bands : List EspaBandMeta) :
    List (ℚ × ℚ) × List (ℚ × ℚ) :=
  if inst = "TM" then
    if band0CalExists bands then
      ((tmLoopIdx.filter (fun i => i != 5)).map (gb bands),
       (tmLoopIdx.filter (fun i => i == 5)).map (gb bands))
    else ([], [])
  else if inst.take 3 = "ETM" then
    if band0CalExists bands then
      ((etmLoopIdx.filter (fun i => i != 5 && i != 6)).map (gb bands),
       (etmLoopIdx.filter (fun i => i == 5 || i == 6)).map (gb bands))
    else ([], [])
  else if inst = "OLI_TIRS" then
    if band0CalExists bands then
      ((oliLoopIdx.filter (fun i => !(i == 9 || i == 10) && i != 7)).map (gb bands),
       (oliLoopIdx.filter (fun i => i == 9 || i == 10)).map (gb bands))
    else ([], [])
  else ([], [])

/-- The derived calibration vectors of one scene: ordered reflective and
thermal (gain, bias) pairs and an optional panchromatic pair. -/
structure CalibVectors where
  refl : List (ℚ × ℚ)
  thrm : List (ℚ × ℚ)
  pan : Option (ℚ × ℚ)
  deriving DecidableEq, Repr

/-- The no-calibration result: ngain_bias = 0, ngain_bias_thm = 0 and no
pan attribute. -/
def noCalib : CalibVectors := ⟨[], [], none⟩

/-- Calibration extraction of write_global_attributes: the instrument
dispatch for reflective and thermal vectors, plus the pan block (lines
437-471), which fires only for ETM-prefixed or OLI_TIRS instruments when
ngain_bias is positive, reading band 8 (ETM) or band 7 (OLI_TIRS). -/
def extractCalibration (inst : String) (bands : List EspaBandMeta) :
    CalibVectors :=
  let rt := reflThmPairs inst bands
  { refl := rt.1
    thrm := rt.2
    pan :=
      if (inst.take 3 = "ETM" ∨ inst = "OLI_TIRS") ∧ 0 < rt.1.length then
        if inst.take 3 = "ETM" then some (gb bands 8)
        else if inst = "OLI_TIRS" then some (gb bands 7)
        else none
      else none }

/-- An HDF attribute value: a character string or a vector of numbers (the
C code funnels every numeric attribute through a double array). -/
inductive AttrVal where
  | str : String → AttrVal
  | nums : List ℚ → AttrVal
  deriving DecidableEq, Repr

/-- The calibration-related global attributes determined by a set of
calibration vectors, as emitted by write_global_attributes (lines 377-471):
ReflGains/ReflBias when ngain_bias is positive, ThermalGains/ThermalBias
when ngain_bias_thm is positive, and PanGain/PanBias per the pan block. -/
def calibAttrsOf (c : CalibVectors) : List (String × AttrVal) :=
  (if 0 < c.refl.length then
     [("ReflGains", AttrVal.nums (c.refl.map Prod.fst)),
      ("ReflBias", AttrVal.nums (c.refl.map Prod.snd))]
   else []) ++
  (if 0 < c.thrm.length then
     [("ThermalGains", AttrVal.nums (c.thrm.map Prod.fst)),
      ("ThermalBias", AttrVal.nums (c.thrm.map Prod.snd))]
   else []) ++
  (match c.pan with
   | some p => [("PanGain", AttrVal.nums [p.1]), ("PanBias", AttrVal.nums [p.2])]
   | none => [])

/-- The calibration-related global attributes a scene emits. -/
def calibAttrs (inst : String) (bands : List EspaBandMeta) :
    List (String × AttrVal) :=
  calibAttrsOf (extractCalibration inst bands)

/-- The fixed SDS name mapping table of convert_hdf_to_old_hdf.c (lines
72-90): (modern identifier, legacy identifier) pairs, in the order the SDSs
are written to the old HDF file. -/
def hdfname_mapping : List (String × String) :=
  [("sr_band1", "band1"),
   ("sr_band2", "band2"),
   ("sr_band3", "band3"),
   ("sr_band4", "band4"),
   ("sr_band5", "band5"),
   ("sr_band7", "band7"),
   ("sr_atmos_opacity", "atmos_opacity"),
   ("sr_fill_qa", "fill_QA"),
   ("sr_ddv_qa", "DDV_QA"),
   ("sr_cloud_qa", "cloud_QA"),
   ("sr_cloud_shadow_qa", "cloud_shadow_QA"),
   ("sr_snow_qa", "snow_QA"),
   ("sr_land_water_qa", "land_water_QA"),
   ("sr_adjacent_cloud_qa", "adjacent_cloud_QA"),
   ("toa_band6", "band6"),
   ("toa_band6_qa", "band6_fill_QA"),
   ("fmask", "fmask_band")]

/-- NOLD_SR: the number of entries of the mapping table. -/
def NOLD_SR : Nat := 17

/-- The modern identifier of slot k of the mapping table. -/
def modernId (k : Nat) : String := (hdfname_mapping.getD k ("", "")).1

/-- The error message produced when a required band of the mapping table is
missing from the XML band list (create_hdf_metadata, lines 1013-1020). -/
def missingBandMsg (name : String) : String :=
  "Band " ++ name ++
    " was not found in the XML file, but it is expected to be available for output."

/-- The bands of the list whose (modern) name equals the given slot name, in
list order; this is what the inner loop of create_hdf_metadata processes
for one slot. -/
def slotMatches (bands : List EspaBandMeta) (modern : String) :
    List EspaBandMeta :=
  bands.filter (fun b => b.name == modern)

/-- The slot-resolution skeleton of the double loop of create_hdf_metadata
(lines 896-1021) with the per-band SDS processing abstracted away: iterate
the mapping slots in table order, keeping the matching bands of each slot;
when a slot has no match and it is not the trailing slot (bnd = NOLD_SR - 1,
the optional fmask slot), fail with the missing-band error. -/
def remapGo (bands : List EspaBandMeta) :
    List (String × String) → Nat →
      Except String (List (String × String × List EspaBandMeta))
  | [], _ => .ok []
  | slot :: rest, bnd =>
    let mtch := slotMatches bands slot.1
    if mtch.isEmpty ∧ bnd ≠ NOLD_SR - 1 then .error (missingBandMsg slot.1)
    else
      match remapGo bands rest (bnd + 1) with
      | .error e => .error e
      | .ok out => .ok ((slot.1, slot.2, mtch) :: out)

/-- The legacy band remap: resolve every slot of hdfname_mapping in table
order against the band list. -/
def legacyRemap (bands : List EspaBandMeta) :
    Except String (List (String × String × List EspaBandMeta)) :=
  remapGo bands hdfname_mapping 0

/-- Concatenation of a list of strings (the net effect of the repeated
strcat calls building the description message). -/
def joinAll : List String → String
  | [] => ""
  | s :: rest => s ++ joinAll rest

/-- The line-appending loop of write_sds_attributes: each line is first
formatted into a STR_SIZE temporary buffer (snprintf fails when the would-be
length reaches STR_SIZE), then appended to the message only if the combined
length stays below MSG_SIZE; otherwise the function fails with an overflow
error rather than truncating. -/
def appendLines (msg : String) : List String → Except String String
  | [] => .ok msg
  | line :: rest =>
    if STR_SIZE ≤ line.length then .error "Overflow of tmp_msg string"
    else if MSG_SIZE ≤ msg.length + line.length then
      .error "Overflow of message string"
    else appendLines (msg ++ line) rest

/-- Build a description message: the header is written by snprintf into the
MSG_SIZE buffer (failing on overflow, which cannot happen for the two
constant headers), then the lines are appended. -/
def buildDesc (header : String) (lines : List String) : Except String String :=
  if MSG_SIZE ≤ header.length then .error "Overflow of message string"
  else appendLines header lines

/-- The untruncated description block: header followed by every line. -/
def fullDesc (header : String) (lines : List String) : String :=
  header ++ joinAll lines

/-- The bitmap description header of write_sds_attributes (lines 730-733). -/
def bitmapHeader : String :=
  "\n\tBits are numbered from right to left (bit 0 = LSB, bit N = MSB):\n\tBit    Description\n"

/-- The class description header of write_sds_attributes (lines 775-776). -/
def classHeader : String := "\n\tClass  Description\n"

/-- One line per bit: snprintf format string backslash-t percent-d, six
blanks, percent-s, backslash-n applied to the bit number and its
description (write_sds_attributes, lines 741-744). -/
def bitLines (b : EspaBandMeta) : List String :=
  (List.range b.nbits.toNat).map
    (fun i => "\t" ++ toString i ++ "      " ++ b.bitmap_description.getD i "" ++ "\n")

/-- One line per class: the same format applied to the class value and its
description (write_sds_attributes, lines 784-788). -/
def classLines (b : EspaBandMeta) : List String :=
  (List.range b.nclass.toNat).map
    (fun i =>
      "\t" ++ toString (b.class_values.getD i (0, "")).1 ++ "      " ++
        (b.class_values.getD i (0, "")).2 ++ "\n")

/-- The bitmap description attribute segment: present when nbits is neither
the sentinel nor nonpositive; building the block can fail on overflow. -/
def bitmapAttrPart (b : EspaBandMeta) :
    Except String (List (String × AttrVal)) :=
  if b.nbits ≠ ESPA_INT_META_FILL ∧ 0 < b.nbits then
    match buildDesc bitmapHeader (bitLines b) with
    | .error e => .error e
    | .ok m => .ok [("Bitmap description", AttrVal.str m)]
  else .ok []

/-- The class description attribute segment, analogous to the bitmap one. -/
def classAttrPart (b : EspaBandMeta) :
    Except String (List (String × AttrVal)) :=
  if b.nclass ≠ ESPA_INT_META_FILL ∧ 0 < b.nclass then
    match buildDesc classHeader (classLines b) with
    | .error e => .error e
    | .ok m => .ok [("Class description", AttrVal.str m)]
  else .ok []

/-- The full ordered SDS attribute list of write_sds_attributes, given the
already-built description segments: long_name and units always; valid_range
when both ends differ from the int sentinel; _FillValue always;
_SaturateValue, scale_factor and add_offset when they differ from the int
sentinel (exact comparison, as in the source at lines 667, 682 and 698);
calibrated_nt when it differs from the float sentinel by more than
ESPA_EPSILON; then the description blocks and app_version when it differs
from the string sentinel. -/
def sdsAttrList (b : EspaBandMeta) (bm cl : List (String × AttrVal)) :
    List (String × AttrVal) :=
  [("long_name", AttrVal.str b.long_name),
   ("units", AttrVal.str b.data_units)] ++
  (if b.valid_range.1 ≠ ESPA_INT_META_FILL ∧ b.valid_range.2 ≠ ESPA_INT_META_FILL then
     [("valid_range", AttrVal.nums [(b.valid_range.1 : ℚ), (b.valid_range.2 : ℚ)])]
   else []) ++
  [("_FillValue", AttrVal.nums [(b.fill_value : ℚ)])] ++
  (if b.saturate_value ≠ ESPA_INT_META_FILL then
     [("_SaturateValue", AttrVal.nums [(b.saturate_value : ℚ)])]
   else []) ++
  (if b.scale_factor ≠ (ESPA_INT_META_FILL : ℚ) then
     [("scale_factor", AttrVal.nums [b.scale_factor])]
   else []) ++
  (if b.add_offset ≠ (ESPA_INT_META_FILL : ℚ) then
     [("add_offset", AttrVal.nums [b.add_offset])]
   else []) ++
  (if ESPA_EPSILON < fabs (b.calibrated_nt - ESPA_FLOAT_META_FILL) then
     [("calibrated_nt", AttrVal.nums [b.calibrated_nt])]
   else []) ++
  bm ++ cl ++
  (if b.app_version ≠ ESPA_STRING_META_FILL then
     [("app_version", AttrVal.str b.app_version)]
   else [])

/-- write_sds_attributes (lines 598-833): assemble the SDS attribute list
for one band, failing exactly where the source fails (description block
overflow); the put_attr primitives are external collaborators modelled as
succeeding. -/
def write_sds_attributes (b : EspaBandMeta) :
    Except String (List (String × AttrVal)) :=
  match bitmapAttrPart b, classAttrPart b with
  | .error e, _ => .error e
  | .ok _, .error e => .error e
  | .ok bm, .ok cl => .ok (sdsAttrList b bm cl)

/-- Whether the assembled attribute list contains an attribute of the given
name. -/
def hasAttr (attrs : List (String × AttrVal)) (name : String) : Bool :=
  attrs.any (fun a => a.1 == name)

/-- The attribute list a band produces on the success path (empty on the
failure path); convenience accessor for concrete evaluation. -/
def bandAttrs (b : EspaBandMeta) : List (String × AttrVal) :=
  match write_sds_attributes b with
  | .ok l => l
  | .error _ => []

/-- The data-type switch of create_hdf_metadata (lines 918-948): the eight
supported ESPA types map to HDF types, anything else is the error of the
default branch. -/
def hdfDataTypeOf : EspaDataType → Except String HdfDataType
  | .espa_int8 => .ok .dfnt_int8
  | .espa_uint8 => .ok .dfnt_uint8
  | .espa_int16 => .ok .dfnt_int16
  | .espa_uint16 => .ok .dfnt_uint16
  | .espa_int32 => .ok .dfnt_int32
  | .espa_uint32 => .ok .dfnt_uint32
  | .espa_float32 => .ok .dfnt_float32
  | .espa_float64 => .ok .dfnt_float64
  | .espa_other => .error "Unsupported ESPA data type."

/-- One SDS of the old HDF file: legacy name, HDF data type, dimensions
(nlines, nsamps) with dimension names YDim and XDim, the external raw
binary file, and the SDS attributes. -/
structure SdsRecord where
  legacyName : String
  data_type : HdfDataType
  dims : Int × Int
  dimNames : String × String
  extFile : String
  attrs : List (String × AttrVal)
  deriving DecidableEq, Repr

/-- Processing of one matching band inside the inner loop of
create_hdf_metadata: validate the data type, create the SDS with YDim/XDim
dimension names and the external raw binary file, and write the SDS
attributes; the HDF library calls themselves are external collaborators
modelled as succeeding. -/
def processBand (legacy : String) (b : EspaBandMeta) :
    Except String SdsRecord :=
  match hdfDataTypeOf b.data_type with
  | .error e => .error e
  | .ok dt =>
    match write_sds_attributes b with
    | .error e => .error e
    | .ok attrs =>
      .ok { legacyName := legacy
            data_type := dt
            dims := (b.nlines, b.nsamps)
            dimNames := ("YDim", "XDim")
            extFile := b.file_name
            attrs := attrs }

/-- The double loop of create_hdf_metadata (lines 896-1021): for each slot
of the mapping table in order, process every band whose name matches the
slot, then fail if no band matched and the slot is not the trailing
optional fmask slot. -/
def slotsGo (bands : List EspaBandMeta) :
    List (String × String) → Nat → Except String (List SdsRecord)
  | [], _ => .ok []
  | slot :: rest, bnd =>
    let mtch := slotMatches bands slot.1
    match mtch.mapM (processBand slot.2) with
    | .error e => .error e
    | .ok recs =>
      if mtch.isEmpty ∧ bnd ≠ NOLD_SR - 1 then .error (missingBandMsg slot.1)
      else
        match slotsGo bands rest (bnd + 1) with
        | .error e => .error e
        | .ok out => .ok (recs ++ out)

/-- create_hdf_metadata (lines 862-1045): the SDS emission pass over the
mapping table; the global attributes and HDF-EOS metadata that follow are
external writes not affecting the SDS list. -/
def create_hdf_metadata (bands : List EspaBandMeta) :
    Except String (List SdsRecord) :=
  slotsGo bands hdfname_mapping 0

/-- Whether an Except value is a success. -/
def isOkE {ε α : Type} : Except ε α → Bool
  | .ok _ => true
  | .error _ => false

/-- The sr_band1 index search of convert_hdf_to_old_hdf (lines 1116-1122):
indx starts at the sentinel -99 and is set to i for every band whose name
equals the first mapping entry, keeping the last match.  srFold is the loop
over indices 0 to n-1. -/
def srFold (bands : List EspaBandMeta) (n : Nat) : Int :=
  (List.range n).foldl
    (fun indx i =>
      if (bands.getD i defaultBand).name = modernId 0 then (i : Int) else indx)
    (-99)

/-- The index the loop leaves in indx: the fold over all band indices. -/
def srIndex (bands : List EspaBandMeta) : Int :=
  srFold bands bands.length

/-- Replacement of every blank character by an underscore, the net effect
of the strchr loop of convert_espa_to_gtif (lines 100-101) on the composed
file name. -/
def replaceBlanks (s : List Char) : List Char :=
  s.map (fun c => if c = ' ' then '_' else c)

/-- The GeoTIFF band file name of convert_espa_to_gtif (lines 89-101): the
base name, an underscore, the band name and the .tif extension, with every
blank replaced by an underscore. -/
def gtifBandName (base bandName : List Char) : List Char :=
  replaceBlanks (base ++ '_' :: (bandName ++ ".tif".data))

/-- A simple band record for concrete instances: supported data type, all
optional fields absent (sentinel), given name and calibration pair. -/
def mkBand (nm : String) (g bs : ℚ) : EspaBandMeta :=
  { defaultBand with
      name := nm
      file_name := nm ++ ".img"
      nlines := 100
      nsamps := 200
      data_type := .espa_int16
      fill_value := -9999
      saturate_value := ESPA_INT_META_FILL
      scale_factor := (ESPA_INT_META_FILL : ℚ)
      add_offset := (ESPA_INT_META_FILL : ℚ)
      calibrated_nt := ESPA_FLOAT_META_FILL
      valid_range := (ESPA_INT_META_FILL, ESPA_INT_META_FILL)
      nbits := ESPA_INT_META_FILL
      nclass := ESPA_INT_META_FILL
      app_version := ESPA_STRING_META_FILL
      toa_gain := g
      toa_bias := bs }

/-- Eleven bands with distinct, non-sentinel gains and biases. -/
def bandsCal : List EspaBandMeta :=
  (List.range 11).map (fun i => mkBand ("band" ++ toString (i + 1)) (i + 1 : ℚ) (100 + i : ℚ))

/-- A band list whose band 0 carries the sentinel gain/bias pair while the
other bands carry ordinary values. -/
def bandsFillFirst : List EspaBandMeta :=
  mkBand "band1" ESPA_FLOAT_META_FILL ESPA_FLOAT_META_FILL ::
    (List.range 10).map (fun i => mkBand ("band" ++ toString (i + 2)) (i + 2 : ℚ) (200 + i : ℚ))

/-- A band list holding exactly the sixteen required modern identifiers of
the mapping table (no fmask band). -/
def bandsFull : List EspaBandMeta :=
  (hdfname_mapping.take 16).map (fun s => mkBand s.1 1 2)

/-- The required bands except sr_band1. -/
def bandsMissingB1 : List EspaBandMeta :=
  ((hdfname_mapping.take 16).filter (fun s => s.1 != "sr_band1")).map
    (fun s => mkBand s.1 1 2)

/-- A band whose scale factor differs from the sentinel by less than
ESPA_EPSILON but is not exactly the sentinel. -/
def bScaleNearFill : EspaBandMeta :=
  { mkBand "near" 1 2 with scale_factor := (ESPA_INT_META_FILL : ℚ) + 1 / 200000 }

/-- A band with a mix of present and absent optional attributes. -/
def bPlain : EspaBandMeta :=
  { mkBand "plain" 1 2 with
      saturate_value := 255
      scale_factor := 2
      calibrated_nt := 5 }

/-- A 900-character description string. -/
def longDesc : String := String.mk (List.replicate 900 'a')

/-- A band whose six bit descriptions together overflow the MSG_SIZE
message buffer. -/
def bandOverflow : EspaBandMeta :=
  { mkBand "qa" 1 2 with
      nbits := 6
      bitmap_description := List.replicate 6 longDesc }

/-- A band whose name matches no entry of the mapping table and whose data
type is outside the supported enumeration. -/
def bandUnmapped : EspaBandMeta :=
  { mkBand "ndvi" 1 2 with data_type := .espa_other }


theorem reflThmPairs_tm (bands : List EspaBandMeta) (h : band0CalExists bands) :
    reflThmPairs "TM" bands =
      ([gb bands 0, gb bands 1, gb bands 2, gb bands 3, gb bands 4, gb bands 6],
       [gb bands 5]) := by
  unfold reflThmPairs
  rw [if_pos rfl, if_pos h]
  rfl

theorem take3_ne_tm (inst : String) (hE : inst.take 3 = "ETM") : inst ≠ "TM" := by
  intro he
  rw [he] at hE
  exact absurd hE (by decide)

theorem reflThmPairs_etm (bands : List EspaBandMeta) (inst : String)
    (hE : inst.take 3 = "ETM") (h : band0CalExists bands) :
    reflThmPairs inst bands =
      ([gb bands 0, gb bands 1, gb bands 2, gb bands 3, gb bands 4, gb bands 7],
       [gb bands 5, gb bands 6]) := by
  unfold reflThmPairs
  rw [if_neg (take3_ne_tm inst hE), if_pos hE, if_pos h]
  rfl

theorem reflThmPairs_oli (bands : List EspaBandMeta) (h : band0CalExists bands) :
    reflThmPairs "OLI_TIRS" bands =
      ([gb bands 0, gb bands 1, gb bands 2, gb bands 3, gb bands 4, gb bands 5,
        gb bands 6, gb bands 8],
       [gb bands 9, gb bands 10]) := by
  unfold reflThmPairs
  rw [if_neg (by decide), if_neg (by decide), if_pos rfl, if_pos h]
  rfl

/-- C1: for a fully populated band list with non-sentinel gain/bias on band
0, calibration extraction gives exactly the documented vectors: TM takes 6
reflective pairs from indices 0,1,2,3,4,6 and one thermal pair from index 5
with no pan pair; an ETM-family instrument takes 6 reflective pairs from
indices 0-4 and 7, thermal pairs from indices 5 and 6, and the pan pair
from index 8; OLI_TIRS takes 8 reflective pairs from indices 0-6 and 8,
thermal pairs from indices 9 and 10, and the pan pair from index 7. -/
theorem calibration_extraction_layout (bands : List EspaBandMeta)
    (hg : ESPA_EPSILON < fabs ((bands.getD 0 defaultBand).toa_gain - ESPA_FLOAT_META_FILL))
    (hb : ESPA_EPSILON < fabs ((bands.getD 0 defaultBand).toa_bias - ESPA_FLOAT_META_FILL)) :
    (7 ≤ bands.length →
      extractCalibration "TM" bands =
        ⟨[gb bands 0, gb bands 1, gb bands 2, gb bands 3, gb bands 4, gb bands 6],
         [gb bands 5], none⟩) ∧
    (∀ inst : String, inst.take 3 = "ETM" → 9 ≤ bands.length →
      extractCalibration inst bands =
        ⟨[gb bands 0, gb bands 1, gb bands 2, gb bands 3, gb bands 4, gb bands 7],
         [gb bands 5, gb bands 6], some (gb bands 8)⟩) ∧
    (11 ≤ bands.length →
      extractCalibration "OLI_TIRS" bands =
        ⟨[gb bands 0, gb bands 1, gb bands 2, gb bands 3, gb bands 4, gb bands 5,
          gb bands 6, gb bands 8],
         [gb bands 9, gb bands 10], some (gb bands 7)⟩) := by
  have hcal : band0CalExists bands := ⟨hg, hb⟩
  refine ⟨fun _ => ?_, fun inst hE _ => ?_, fun _ => ?_⟩
  · simp only [extractCalibration]
    rw [reflThmPairs_tm bands hcal]
    rfl
  · simp only [extractCalibration]
    rw [reflThmPairs_etm bands inst hE hcal]
    simp [hE]
  · simp only [extractCalibration]
    rw [reflThmPairs_oli bands hcal]
    rfl

/-- C1 witness: the layout theorem applied to a concrete eleven-band list
for the OLI_TIRS class. -/
theorem calibration_extraction_layout_witness :
    extractCalibration "OLI_TIRS" bandsCal =
      ⟨[gb bandsCal 0, gb bandsCal 1, gb bandsCal 2, gb bandsCal 3, gb bandsCal 4,
        gb bandsCal 5, gb bandsCal 6, gb bandsCal 8],
       [gb bandsCal 9, gb bandsCal 10], some (gb bandsCal 7)⟩ :=
  (calibration_extraction_layout bandsCal (by with_unfolding_all decide)
    (by with_unfolding_all decide)).2.2 (by decide)

/-- C2: when band 0 carries the sentinel gain/bias pair, calibration
extraction yields no calibration for every instrument identifier, and no
reflective, thermal or pan gain/bias attribute is emitted, regardless of
the gain/bias values of every other band. -/
theorem calibration_sentinel_band0 (inst : String) (bands : List EspaBandMeta)
    (hg : (bands.getD 0 defaultBand).toa_gain = ESPA_FLOAT_META_FILL)
    (hb : (bands.getD 0 defaultBand).toa_bias = ESPA_FLOAT_META_FILL) :
    extractCalibration inst bands = noCalib ∧ calibAttrs inst bands = [] := by
  have hnc : ¬ band0CalExists bands := by
    intro hc
    have h1 := hc.1
    rw [hg, sub_self] at h1
    norm_num [fabs, ESPA_EPSILON] at h1
  have hrt : reflThmPairs inst bands = ([], []) := by
    unfold reflThmPairs
    split_ifs <;> first | rfl | exact absurd (by assumption) hnc
  have hex : extractCalibration inst bands = noCalib := by
    simp only [extractCalibration]
    rw [hrt]
    simp [noCalib]
  refine ⟨hex, ?_⟩
  simp only [calibAttrs, hex]
  rfl

/-- C2 witness: a TM scene whose band 0 has the sentinel pair while ten
other bands carry ordinary values. -/
theorem calibration_sentinel_band0_witness :
    extractCalibration "TM" bandsFillFirst = noCalib ∧
      calibAttrs "TM" bandsFillFirst = [] :=
  calibration_sentinel_band0 "TM" bandsFillFirst rfl rfl

/-- C8: an instrument identifier that is not TM, not of the ETM family and
not OLI_TIRS deterministically yields no calibration: extraction returns
the empty vectors, no reflective, thermal or pan attribute is emitted, and
no error path exists (the extraction is total). -/
theorem calibration_unrecognized_instrument (inst : String)
    (bands : List EspaBandMeta) (h1 : inst ≠ "TM") (h2 : inst.take 3 ≠ "ETM")
    (h3 : inst ≠ "OLI_TIRS") :
    extractCalibration inst bands = noCalib ∧ calibAttrs inst bands = [] := by
  have hrt : reflThmPairs inst bands = ([], []) := by
    unfold reflThmPairs
    rw [if_neg h1, if_neg h2, if_neg h3]
  have hex : extractCalibration inst bands = noCalib := by
    simp only [extractCalibration]
    rw [hrt]
    simp [noCalib]
  refine ⟨hex, ?_⟩
  simp only [calibAttrs, hex]
  rfl

/-- C8 witness: the MODIS identifier on the eleven-band list. -/
theorem calibration_unrecognized_instrument_witness :
    extractCalibration "MODIS" bandsCal = noCalib ∧
      calibAttrs "MODIS" bandsCal = [] :=
  calibration_unrecognized_instrument "MODIS" bandsCal (by decide) (by decide)
    (by decide)

theorem remapGo_ok (bands : List EspaBandMeta) (slots : List (String × String))
    (bnd : Nat)
    (h : ∀ k, k < slots.length → bnd + k ≠ NOLD_SR - 1 →
      slotMatches bands (slots.getD k ("", "")).1 ≠ []) :
    remapGo bands slots bnd =
      .ok (slots.map (fun s => (s.1, s.2, slotMatches bands s.1))) := by
  induction slots generalizing bnd with
  | nil => rfl
  | cons slot rest ih =>
    have hcond : ¬ ((slotMatches bands slot.1).isEmpty = true ∧ bnd ≠ NOLD_SR - 1) := by
      rintro ⟨he, hbn⟩
      exact h 0 (Nat.succ_pos _) (by simpa using hbn)
        (List.isEmpty_iff.mp he)
    simp only [remapGo]
    rw [if_neg hcond, ih (bnd + 1) (fun k hk hne =>
      h (k + 1) (by simpa [Nat.succ_lt_succ_iff] using hk)
        (by have heq : bnd + (k + 1) = bnd + 1 + k := by omega
            rw [heq]; exact hne))]
    rfl

theorem remapGo_missing (bands : List EspaBandMeta)
    (slots : List (String × String)) (bnd k : Nat) (hk : k < slots.length)
    (hne : bnd + k ≠ NOLD_SR - 1)
    (hempty : slotMatches bands (slots.getD k ("", "")).1 = [])
    (hearl : ∀ j, j < k → bnd + j = NOLD_SR - 1 ∨
      slotMatches bands (slots.getD j ("", "")).1 ≠ []) :
    remapGo bands slots bnd = .error (missingBandMsg (slots.getD k ("", "")).1) := by
  induction slots generalizing bnd k with
  | nil => exact absurd hk (Nat.not_lt_zero k)
  | cons slot rest ih =>
    match k with
    | 0 =>
      have he : (slotMatches bands slot.1).isEmpty = true := by
        have h0 : slotMatches bands slot.1 = [] := hempty
        rw [h0]; rfl
      have hbn : bnd ≠ NOLD_SR - 1 := hne
      simp only [remapGo]
      rw [if_pos ⟨he, hbn⟩]
      rfl
    | k' + 1 =>
      have hcond : ¬ ((slotMatches bands slot.1).isEmpty = true ∧ bnd ≠ NOLD_SR - 1) := by
        rintro ⟨he, hbn⟩
        rcases hearl 0 (Nat.succ_pos _) with hx | hx
        · exact hbn (by simpa using hx)
        · exact hx (List.isEmpty_iff.mp he)
      simp only [remapGo]
      rw [if_neg hcond, ih (bnd + 1) k' (by simpa [Nat.succ_lt_succ_iff] using hk)
        (by have heq : bnd + 1 + k' = bnd + (k' + 1) := by omega
            rw [heq]; exact hne)
        hempty
        (fun j hj => by
          have heq : bnd + 1 + j = bnd + (j + 1) := by omega
          rw [heq]
          exact hearl (j + 1) (by simpa [Nat.succ_lt_succ_iff] using hj))]
      rfl

/-- C3: the legacy remap fails with the missing-required-band error naming
the modern identifier of the first required slot (every slot except the
trailing fmask slot, index NOLD_SR - 1) that no band of the list matches;
when every required slot is matched, the remap succeeds, resolving every
slot to its matching bands in table order, with the optional fmask slot
allowed to resolve to the empty match list. -/
theorem legacy_remap_required_slots (bands : List EspaBandMeta) :
    (∀ k, k < NOLD_SR - 1 →
      (∀ j, j < k → slotMatches bands (modernId j) ≠ []) →
      slotMatches bands (modernId k) = [] →
      legacyRemap bands = .error (missingBandMsg (modernId k))) ∧
    ((∀ k, k < NOLD_SR - 1 → slotMatches bands (modernId k) ≠ []) →
      legacyRemap bands =
        .ok (hdfname_mapping.map (fun s => (s.1, s.2, slotMatches bands s.1)))) := by
  have hN : NOLD_SR = 17 := rfl
  have hL : hdfname_mapping.length = 17 := rfl
  constructor
  · intro k hk hearl hempty
    exact remapGo_missing bands hdfname_mapping 0 k (by omega)
      (by show 0 + k ≠ NOLD_SR - 1; omega) hempty
      (fun j hj => Or.inr (hearl j hj))
  · intro hreq
    exact remapGo_ok bands hdfname_mapping 0
      (fun k hk hne => hreq k (by
        have h2 : 0 + k ≠ NOLD_SR - 1 := hne
        omega))

/-- C3 witness: the remap of a band list missing sr_band1 fails naming
sr_band1. -/
theorem legacy_remap_required_slots_witness :
    legacyRemap bandsMissingB1 = .error (missingBandMsg "sr_band1") :=
  (legacy_remap_required_slots bandsMissingB1).1 0 (by decide)
    (fun j hj => absurd hj (Nat.not_lt_zero j)) (by decide)

/-- C4: when every required slot has a match, the legacy remap succeeds on
the band list and on any permutation of it, and in both cases the emitted
slot sequence is exactly the mapping table in table order, independent of
the order of the bands in the input list. -/
theorem legacy_remap_order_normalization (bands bands2 : List EspaBandMeta)
    (hperm : bands.Perm bands2)
    (hreq : ∀ k, k < NOLD_SR - 1 → slotMatches bands (modernId k) ≠ []) :
    ∃ out out2,
      legacyRemap bands = .ok out ∧ legacyRemap bands2 = .ok out2 ∧
      out.map (fun e => e.1) = hdfname_mapping.map (fun s => s.1) ∧
      out2.map (fun e => e.1) = hdfname_mapping.map (fun s => s.1) := by
  have hN : NOLD_SR = 17 := rfl
  have hL : hdfname_mapping.length = 17 := rfl
  have hreq2 : ∀ k, k < NOLD_SR - 1 → slotMatches bands2 (modernId k) ≠ [] := by
    intro k hk hnil
    apply hreq k hk
    have hp := hperm.filter (fun b => b.name == modernId k)
    unfold slotMatches at hnil
    rw [hnil] at hp
    exact hp.eq_nil
  refine ⟨_, _,
    remapGo_ok bands hdfname_mapping 0 (fun k hk hne => hreq k (by
      have h2 : 0 + k ≠ NOLD_SR - 1 := hne
      omega)),
    remapGo_ok bands2 hdfname_mapping 0 (fun k hk hne => hreq2 k (by
      have h2 : 0 + k ≠ NOLD_SR - 1 := hne
      omega)), ?_, ?_⟩
  · rw [List.map_map]
    rfl
  · rw [List.map_map]
    rfl

/-- C4 witness: the full required band list against its reversal. -/
theorem legacy_remap_order_normalization_witness :
    ∃ out out2,
      legacyRemap bandsFull = .ok out ∧
      legacyRemap bandsFull.reverse = .ok out2 ∧
      out.map (fun e => e.1) = hdfname_mapping.map (fun s => s.1) ∧
      out2.map (fun e => e.1) = hdfname_mapping.map (fun s => s.1) :=
  legacy_remap_order_normalization bandsFull bandsFull.reverse
    (List.reverse_perm bandsFull).symm (by decide)

theorem srFold_succ (bands : List EspaBandMeta) (m : Nat) :
    srFold bands (m + 1) =
      if (bands.getD m defaultBand).name = modernId 0 then (m : Int)
      else srFold bands m := by
  unfold srFold
  rw [List.range_succ, List.foldl_append]
  rfl

theorem srFold_spec (bands : List EspaBandMeta) (n : Nat)
    (h : ∃ i, i < n ∧ (bands.getD i defaultBand).name = modernId 0) :
    0 ≤ srFold bands n ∧ (srFold bands n).toNat < n ∧
      (bands.getD (srFold bands n).toNat defaultBand).name = modernId 0 := by
  induction n with
  | zero =>
    obtain ⟨i, hi, _⟩ := h
    exact absurd hi (Nat.not_lt_zero i)
  | succ m ih =>
    rw [srFold_succ]
    by_cases hm : (bands.getD m defaultBand).name = modernId 0
    · rw [if_pos hm]
      refine ⟨Int.ofNat_nonneg m, ?_, ?_⟩
      · simpa using Nat.lt_succ_self m
      · simpa using hm
    · rw [if_neg hm]
      have h2 : ∃ i, i < m ∧ (bands.getD i defaultBand).name = modernId 0 := by
        obtain ⟨i, hi, hname⟩ := h
        refine ⟨i, ?_, hname⟩
        rcases Nat.lt_succ_iff_lt_or_eq.mp hi with hx | hx
        · exact hx
        · subst hx
          exact absurd hname hm
      obtain ⟨h1, hlt, hname⟩ := ih h2
      exact ⟨h1, Nat.lt_succ_of_lt hlt, hname⟩

theorem slotsGo_head_missing (bands : List EspaBandMeta)
    (slot : String × String) (rest : List (String × String)) (bnd : Nat)
    (hb : bnd ≠ NOLD_SR - 1) (hnil : slotMatches bands slot.1 = []) :
    slotsGo bands (slot :: rest) bnd = .error (missingBandMsg slot.1) := by
  simp only [slotsGo]
  rw [hnil]
  show (if ([] : List EspaBandMeta).isEmpty = true ∧ bnd ≠ NOLD_SR - 1 then
      Except.error (missingBandMsg slot.1)
    else
      match slotsGo bands rest (bnd + 1) with
      | .error e => .error e
      | .ok out => .ok (([] : List SdsRecord) ++ out)) =
    Except.error (missingBandMsg slot.1)
  rw [if_pos (⟨rfl, hb⟩ :
    ([] : List EspaBandMeta).isEmpty = true ∧ bnd ≠ NOLD_SR - 1)]

/-- C9: whenever create_hdf_metadata succeeds, some band is named sr_band1
(the first, required slot of the table), so the ENVI-header index search
never keeps its sentinel -99: the resulting index is nonnegative, within
the band list bounds, and points at a band named sr_band1. -/
theorem create_success_sr_band1_in_bounds (bands : List EspaBandMeta)
    (h : isOkE (create_hdf_metadata bands) = true) :
    srIndex bands ≠ -99 ∧ 0 ≤ srIndex bands ∧
      (srIndex bands).toNat < bands.length ∧
      (bands.getD (srIndex bands).toNat defaultBand).name = "sr_band1" := by
  have hmem : slotMatches bands "sr_band1" ≠ [] := by
    intro hnil
    unfold create_hdf_metadata at h
    rw [show hdfname_mapping =
      ("sr_band1", "band1") :: hdfname_mapping.tail from rfl] at h
    rw [slotsGo_head_missing bands ("sr_band1", "band1") hdfname_mapping.tail 0
      (by decide) hnil] at h
    simp [isOkE] at h
  obtain ⟨b, hbmem, hbname⟩ : ∃ b ∈ bands, b.name = "sr_band1" := by
    rcases hx : slotMatches bands "sr_band1" with _ | ⟨b, rest⟩
    · exact absurd hx hmem
    · have hbm : b ∈ slotMatches bands "sr_band1" := by
        rw [hx]
        exact List.mem_cons_self b rest
      have hmf := List.mem_filter.mp hbm
      exact ⟨b, hmf.1, by simpa using hmf.2⟩
  obtain ⟨i, hilen, hieq⟩ := List.getElem_of_mem hbmem
  have hex : ∃ i, i < bands.length ∧
      (bands.getD i defaultBand).name = modernId 0 := by
    refine ⟨i, hilen, ?_⟩
    rw [List.getD_eq_getElem bands defaultBand hilen, hieq]
    exact hbname
  obtain ⟨h1, h2, h3⟩ := srFold_spec bands bands.length hex
  refine ⟨?_, h1, h2, h3⟩
  intro he
  rw [show srIndex bands = srFold bands bands.length from rfl] at he
  rw [he] at h1
  exact absurd h1 (by decide)

/-- C9 witness: the full required band list, on which creation succeeds. -/
theorem create_success_sr_band1_in_bounds_witness :
    isOkE (create_hdf_metadata bandsFull) = true ∧
      (srIndex bandsFull ≠ -99 ∧ 0 ≤ srIndex bandsFull ∧
        (srIndex bandsFull).toNat < bandsFull.length ∧
        (bandsFull.getD (srIndex bandsFull).toNat defaultBand).name = "sr_band1") :=
  ⟨by with_unfolding_all decide,
   create_success_sr_band1_in_bounds bandsFull (by with_unfolding_all decide)⟩

theorem slotsGo_ignore_unmapped (l1 l2 : List EspaBandMeta) (b : EspaBandMeta)
    (slots : List (String × String)) (bnd : Nat)
    (hname : ∀ s ∈ slots, b.name ≠ s.1) :
    slotsGo (l1 ++ b :: l2) slots bnd = slotsGo (l1 ++ l2) slots bnd := by
  induction slots generalizing bnd with
  | nil => rfl
  | cons slot rest ih =>
    have hb : (b.name == slot.1) = false :=
      beq_eq_false_iff_ne.mpr (hname slot (List.mem_cons_self _ _))
    have hfil : slotMatches (l1 ++ b :: l2) slot.1 = slotMatches (l1 ++ l2) slot.1 := by
      unfold slotMatches
      rw [List.filter_append, List.filter_append, List.filter_cons, hb]
      simp
    simp only [slotsGo]
    rw [hfil, ih (bnd + 1) (fun s hs => hname s (List.mem_cons_of_mem _ hs))]

/-- C10: a band whose modern identifier matches no entry of the 17-slot
mapping table is silently ignored by create_hdf_metadata: inserting it
anywhere in the band list leaves the result (emitted SDS list or error)
unchanged, so no SDS is created for it, none of its attributes are
emitted, its data type is never validated, and its presence never causes
the conversion to fail. -/
theorem create_ignores_unmapped_band (l1 l2 : List EspaBandMeta)
    (b : EspaBandMeta)
    (hname : b.name ∉ hdfname_mapping.map (fun s => s.1)) :
    create_hdf_metadata (l1 ++ b :: l2) = create_hdf_metadata (l1 ++ l2) := by
  unfold create_hdf_metadata
  exact slotsGo_ignore_unmapped l1 l2 b hdfname_mapping 0
    (fun s hs he => hname (by rw [he]; exact List.mem_map_of_mem (fun s => s.1) hs))

/-- C10 witness: appending a band named ndvi, with an unsupported data
type, to the full required list changes nothing. -/
theorem create_ignores_unmapped_band_witness :
    (bandUnmapped.name ∉ hdfname_mapping.map (fun s => s.1)) ∧
      create_hdf_metadata (bandsFull ++ bandUnmapped :: []) =
        create_hdf_metadata (bandsFull ++ []) :=
  ⟨by decide,
   create_ignores_unmapped_band bandsFull [] bandUnmapped (by decide)⟩

theorem replaceBlanks_no_blank (s : List Char) (h : ' ' ∉ s) :
    replaceBlanks s = s := by
  induction s with
  | nil => rfl
  | cons c cs ih =>
    have hc : ¬ (c = ' ') := fun he => h (he ▸ List.mem_cons_self c cs)
    unfold replaceBlanks
    rw [List.map_cons, if_neg hc]
    have ht := ih (fun hm => h (List.mem_cons_of_mem _ hm))
    unfold replaceBlanks at ht
    rw [ht]

/-- C5: the derived GeoTIFF band file name is the base name, an underscore,
the band identifier and the .tif extension with every blank character
replaced by an underscore in one application: the result never contains a
blank, is unchanged when the base and band names contain no blank, the
replacement is idempotent on its own output, and base "scene A" with band
"band 1" gives "scene_A_band_1.tif". -/
theorem gtif_band_name_spec (base bandName : List Char) :
    ' ' ∉ gtifBandName base bandName ∧
    (' ' ∉ base → ' ' ∉ bandName →
      gtifBandName base bandName = base ++ '_' :: (bandName ++ ".tif".data)) ∧
    replaceBlanks (gtifBandName base bandName) = gtifBandName base bandName ∧
    gtifBandName "scene A".data "band 1".data = "scene_A_band_1.tif".data := by
  refine ⟨?_, ?_, ?_, by decide⟩
  · intro hmem
    unfold gtifBandName replaceBlanks at hmem
    rcases List.mem_map.mp hmem with ⟨c, _, hc⟩
    by_cases h : c = ' '
    · rw [if_pos h] at hc
      exact absurd hc (by decide)
    · rw [if_neg h] at hc
      exact h hc
  · intro h1 h2
    unfold gtifBandName
    apply replaceBlanks_no_blank
    intro hmem
    rcases List.mem_append.mp hmem with hx | hx
    · exact h1 hx
    · rcases List.mem_cons.mp hx with hx | hx
      · exact absurd hx (by decide)
      · rcases List.mem_append.mp hx with hx | hx
        · exact h2 hx
        · exact absurd hx (by decide)
  · unfold gtifBandName replaceBlanks
    rw [List.map_map]
    have hff : ((fun c => if c = ' ' then '_' else c) ∘
        (fun c => if c = ' ' then '_' else c)) =
        (fun c => if c = ' ' then '_' else c) := by
      funext c
      by_cases h : c = ' ' <;> simp [h]
    rw [hff]

theorem appendLines_ok (lines : List String) (msg s : String)
    (hm : msg.length < MSG_SIZE) (h : appendLines msg lines = .ok s) :
    s = msg ++ joinAll lines ∧ s.length < MSG_SIZE := by
  induction lines generalizing msg with
  | nil =>
    unfold appendLines at h
    cases h
    rw [joinAll, String.append_empty]
    exact ⟨rfl, hm⟩
  | cons t rest ih =>
    unfold appendLines at h
    by_cases h1 : STR_SIZE ≤ t.length
    · rw [if_pos h1] at h
      exact Except.noConfusion h
    · rw [if_neg h1] at h
      by_cases h2 : MSG_SIZE ≤ msg.length + t.length
      · rw [if_pos h2] at h
        exact Except.noConfusion h
      · rw [if_neg h2] at h
        have hm2 : (msg ++ t).length < MSG_SIZE := by
          rw [String.length_append]
          omega
        obtain ⟨hs, hlen⟩ := ih (msg ++ t) hm2 h
        refine ⟨?_, hlen⟩
        rw [hs, String.append_assoc]
        rfl

theorem appendLines_overflow (lines : List String) (msg : String)
    (hm : msg.length < MSG_SIZE)
    (h : MSG_SIZE ≤ (msg ++ joinAll lines).length) :
    ∃ e, appendLines msg lines = .error e := by
  induction lines generalizing msg with
  | nil =>
    rw [joinAll, String.append_empty] at h
    omega
  | cons t rest ih =>
    unfold appendLines
    split_ifs with h1 h2
    · exact ⟨_, rfl⟩
    · exact ⟨_, rfl⟩
    · apply ih (msg ++ t)
      · rw [String.length_append]
        omega
      · have hj : joinAll (t :: rest) = t ++ joinAll rest := rfl
        rw [hj, ← String.append_assoc] at h
        exact h

/-- C7: whenever a bitmap or class description block is assembled
successfully, the result is exactly the untruncated block (header followed
by one formatted line per bit or class) and its length is below the
MSG_SIZE bound; whenever the untruncated block would reach the bound, the
assembly fails with an overflow error (never emitting a truncated block),
and such a failure propagates to a failure of write_sds_attributes. -/
theorem description_block_bounded (b : EspaBandMeta) :
    (∀ s, buildDesc bitmapHeader (bitLines b) = .ok s →
      s = fullDesc bitmapHeader (bitLines b) ∧ s.length < MSG_SIZE) ∧
    (MSG_SIZE ≤ (fullDesc bitmapHeader (bitLines b)).length →
      ∃ e, buildDesc bitmapHeader (bitLines b) = .error e) ∧
    (∀ s, buildDesc classHeader (classLines b) = .ok s →
      s = fullDesc classHeader (classLines b) ∧ s.length < MSG_SIZE) ∧
    (MSG_SIZE ≤ (fullDesc classHeader (classLines b)).length →
      ∃ e, buildDesc classHeader (classLines b) = .error e) ∧
    ((b.nbits ≠ ESPA_INT_META_FILL ∧ 0 < b.nbits) →
      (∃ e, buildDesc bitmapHeader (bitLines b) = .error e) →
      ∃ e2, write_sds_attributes b = .error e2) := by
  have hbh : bitmapHeader.length < MSG_SIZE := by decide
  have hch : classHeader.length < MSG_SIZE := by decide
  have hbd : buildDesc bitmapHeader (bitLines b) =
      appendLines bitmapHeader (bitLines b) := by
    unfold buildDesc
    rw [if_neg (Nat.not_le_of_lt hbh)]
  have hcd : buildDesc classHeader (classLines b) =
      appendLines classHeader (classLines b) := by
    unfold buildDesc
    rw [if_neg (Nat.not_le_of_lt hch)]
  refine ⟨?_, ?_, ?_, ?_, ?_⟩
  · intro s hs
    rw [hbd] at hs
    exact appendLines_ok (bitLines b) bitmapHeader s hbh hs
  · intro hlen
    rw [hbd]
    exact appendLines_overflow (bitLines b) bitmapHeader hbh hlen
  · intro s hs
    rw [hcd] at hs
    exact appendLines_ok (classLines b) classHeader s hch hs
  · intro hlen
    rw [hcd]
    exact appendLines_overflow (classLines b) classHeader hch hlen
  · rintro hn ⟨e, he⟩
    unfold write_sds_attributes bitmapAttrPart
    rw [if_pos hn, he]
    exact ⟨e, rfl⟩

theorem bandOverflow_msg_length :
    MSG_SIZE ≤ (fullDesc bitmapHeader (bitLines bandOverflow)).length := by
  have hlines : bitLines bandOverflow =
      ["\t0      " ++ longDesc ++ "\n",
       "\t1      " ++ longDesc ++ "\n",
       "\t2      " ++ longDesc ++ "\n",
       "\t3      " ++ longDesc ++ "\n",
       "\t4      " ++ longDesc ++ "\n",
       "\t5      " ++ longDesc ++ "\n"] := rfl
  have hld : longDesc.length = 900 := by
    simp [longDesc, String.length, List.length_replicate]
  unfold fullDesc
  rw [hlines]
  have e0 : ("\t0      " : String).length = 8 := rfl
  have e1 : ("\t1      " : String).length = 8 := rfl
  have e2 : ("\t2      " : String).length = 8 := rfl
  have e3 : ("\t3      " : String).length = 8 := rfl
  have e4 : ("\t4      " : String).length = 8 := rfl
  have e5 : ("\t5      " : String).length = 8 := rfl
  have en : ("\n" : String).length = 1 := rfl
  have ee : ("" : String).length = 0 := rfl
  have hj : (joinAll ["\t0      " ++ longDesc ++ "\n",
      "\t1      " ++ longDesc ++ "\n", "\t2      " ++ longDesc ++ "\n",
      "\t3      " ++ longDesc ++ "\n", "\t4      " ++ longDesc ++ "\n",
      "\t5      " ++ longDesc ++ "\n"]).length = 5454 := by
    simp only [joinAll, String.length_append, hld, e0, e1, e2, e3, e4, e5, en, ee]
  rw [String.length_append, hj]
  have hbh : bitmapHeader.length = 87 := rfl
  rw [hbh]
  decide

/-- C7 witness: a band whose six bit descriptions together exceed the
message buffer makes assembly fail. -/
theorem description_block_bounded_witness :
    MSG_SIZE ≤ (fullDesc bitmapHeader (bitLines bandOverflow)).length ∧
      ∃ e, buildDesc bitmapHeader (bitLines bandOverflow) = .error e :=
  ⟨bandOverflow_msg_length,
   (description_block_bounded bandOverflow).2.1 bandOverflow_msg_length⟩

theorem hasAttr_append (l1 l2 : List (String × AttrVal)) (n : String) :
    hasAttr (l1 ++ l2) n = (hasAttr l1 n || hasAttr l2 n) := by
  unfold hasAttr
  exact List.any_append

theorem hasAttr_cons (p : String × AttrVal) (l : List (String × AttrVal))
    (n : String) : hasAttr (p :: l) n = ((p.1 == n) || hasAttr l n) := rfl

theorem hasAttr_nil (n : String) : hasAttr [] n = false := rfl

theorem hasAttr_if_single (c : Prop) [Decidable c] (nm : String) (v : AttrVal)
    (n : String) :
    hasAttr (if c then [(nm, v)] else []) n = (decide c && (nm == n)) := by
  split_ifs with h <;> simp [hasAttr, h]

theorem write_sds_no_desc (b : EspaBandMeta)
    (h1 : b.nbits = ESPA_INT_META_FILL) (h2 : b.nclass = ESPA_INT_META_FILL) :
    write_sds_attributes b = .ok (sdsAttrList b [] []) := by
  unfold write_sds_attributes bitmapAttrPart classAttrPart
  rw [if_neg (fun hc => hc.1 h1), if_neg (fun hc => hc.1 h2)]

theorem bitmapAttrPart_names (b : EspaBandMeta) (l : List (String × AttrVal))
    (h : bitmapAttrPart b = .ok l) (n : String)
    (hn : ("Bitmap description" == n) = false) : hasAttr l n = false := by
  unfold bitmapAttrPart at h
  split_ifs at h
  · cases hb : buildDesc bitmapHeader (bitLines b) with
    | error e =>
      rw [hb] at h
      exact Except.noConfusion h
    | ok m =>
      rw [hb] at h
      cases h
      simp [hasAttr, hn]
  · cases h
    rfl

theorem classAttrPart_names (b : EspaBandMeta) (l : List (String × AttrVal))
    (h : classAttrPart b = .ok l) (n : String)
    (hn : ("Class description" == n) = false) : hasAttr l n = false := by
  unfold classAttrPart at h
  split_ifs at h
  · cases hb : buildDesc classHeader (classLines b) with
    | error e =>
      rw [hb] at h
      exact Except.noConfusion h
    | ok m =>
      rw [hb] at h
      cases h
      simp [hasAttr, hn]
  · cases h
    rfl

theorem hasAttr_sds_saturate (b : EspaBandMeta) (bm cl : List (String × AttrVal))
    (hbm : hasAttr bm "_SaturateValue" = false)
    (hcl : hasAttr cl "_SaturateValue" = false) :
    hasAttr (sdsAttrList b bm cl) "_SaturateValue" =
      decide (b.saturate_value ≠ ESPA_INT_META_FILL) := by
  unfold sdsAttrList
  simp only [hasAttr_append, hasAttr_cons, hasAttr_nil, hasAttr_if_single, hbm, hcl]
  simp

theorem hasAttr_sds_scale (b : EspaBandMeta) (bm cl : List (String × AttrVal))
    (hbm : hasAttr bm "scale_factor" = false)
    (hcl : hasAttr cl "scale_factor" = false) :
    hasAttr (sdsAttrList b bm cl) "scale_factor" =
      decide (b.scale_factor ≠ (ESPA_INT_META_FILL : ℚ)) := by
  unfold sdsAttrList
  simp only [hasAttr_append, hasAttr_cons, hasAttr_nil, hasAttr_if_single, hbm, hcl]
  simp

theorem hasAttr_sds_offset (b : EspaBandMeta) (bm cl : List (String × AttrVal))
    (hbm : hasAttr bm "add_offset" = false)
    (hcl : hasAttr cl "add_offset" = false) :
    hasAttr (sdsAttrList b bm cl) "add_offset" =
      decide (b.add_offset ≠ (ESPA_INT_META_FILL : ℚ)) := by
  unfold sdsAttrList
  simp only [hasAttr_append, hasAttr_cons, hasAttr_nil, hasAttr_if_single, hbm, hcl]
  simp

theorem hasAttr_sds_calnt (b : EspaBandMeta) (bm cl : List (String × AttrVal))
    (hbm : hasAttr bm "calibrated_nt" = false)
    (hcl : hasAttr cl "calibrated_nt" = false) :
    hasAttr (sdsAttrList b bm cl) "calibrated_nt" =
      decide (ESPA_EPSILON < fabs (b.calibrated_nt - ESPA_FLOAT_META_FILL)) := by
  unfold sdsAttrList
  simp only [hasAttr_append, hasAttr_cons, hasAttr_nil, hasAttr_if_single, hbm, hcl]
  simp

/-- C6 counterexample: the claim says presence of floating-point optional
band attributes such as scale_factor is decided epsilon-tolerantly.  The
band bScaleNearFill has a scale factor within ESPA_EPSILON of the sentinel
(so an epsilon-tolerant test would treat it as absent), yet the assembled
output contains the scale_factor attribute, because the source compares
scale_factor to the integer sentinel with exact inequality (line 682). -/
theorem sds_attr_scale_epsilon_counterexample :
    hasAttr (bandAttrs bScaleNearFill) "scale_factor" = true ∧
      ¬ (ESPA_EPSILON <
        fabs (bScaleNearFill.scale_factor - ESPA_FLOAT_META_FILL)) := by
  have hw : write_sds_attributes bScaleNearFill =
      .ok (sdsAttrList bScaleNearFill [] []) := write_sds_no_desc _ rfl rfl
  have hb : bandAttrs bScaleNearFill = sdsAttrList bScaleNearFill [] [] := by
    unfold bandAttrs
    rw [hw]
  have hsc : bScaleNearFill.scale_factor ≠ (ESPA_INT_META_FILL : ℚ) := by
    show ((ESPA_INT_META_FILL : ℚ) + 1 / 200000) ≠ (ESPA_INT_META_FILL : ℚ)
    norm_num
  constructor
  · rw [hb, hasAttr_sds_scale bScaleNearFill [] [] rfl rfl]
    simp [hsc]
  · show ¬ (ESPA_EPSILON <
      fabs (((ESPA_INT_META_FILL : ℚ) + 1 / 200000) - ESPA_FLOAT_META_FILL))
    norm_num [fabs, ESPA_EPSILON, ESPA_FLOAT_META_FILL, ESPA_INT_META_FILL]

/-- C6 amended: presence of each optional numeric band attribute is
decided by inequality with its sentinel, but the comparison is exact (not
epsilon-tolerant) for saturate value, scale factor and additive offset,
all compared against the integer sentinel; only calibrated noise uses the
epsilon-tolerant comparison against the float sentinel. -/
theorem sds_attr_optional_presence (b : EspaBandMeta)
    (out : List (String × AttrVal)) (h : write_sds_attributes b = .ok out) :
    (hasAttr out "_SaturateValue" = true ↔
      b.saturate_value ≠ ESPA_INT_META_FILL) ∧
    (hasAttr out "scale_factor" = true ↔
      b.scale_factor ≠ (ESPA_INT_META_FILL : ℚ)) ∧
    (hasAttr out "add_offset" = true ↔
      b.add_offset ≠ (ESPA_INT_META_FILL : ℚ)) ∧
    (hasAttr out "calibrated_nt" = true ↔
      ESPA_EPSILON < fabs (b.calibrated_nt - ESPA_FLOAT_META_FILL)) := by
  unfold write_sds_attributes at h
  cases hbm : bitmapAttrPart b with
  | error e =>
    rw [hbm] at h
    exact Except.noConfusion h
  | ok bm =>
    cases hcl : classAttrPart b with
    | error e =>
      rw [hbm, hcl] at h
      exact Except.noConfusion h
    | ok cl =>
      rw [hbm, hcl] at h
      cases h
      refine ⟨?_, ?_, ?_, ?_⟩
      · rw [hasAttr_sds_saturate b bm cl
          (bitmapAttrPart_names b bm hbm "_SaturateValue" rfl)
          (classAttrPart_names b cl hcl "_SaturateValue" rfl)]
        exact decide_eq_true_iff
      · rw [hasAttr_sds_scale b bm cl
          (bitmapAttrPart_names b bm hbm "scale_factor" rfl)
          (classAttrPart_names b cl hcl "scale_factor" rfl)]
        exact decide_eq_true_iff
      · rw [hasAttr_sds_offset b bm cl
          (bitmapAttrPart_names b bm hbm "add_offset" rfl)
          (classAttrPart_names b cl hcl "add_offset" rfl)]
        exact decide_eq_true_iff
      · rw [hasAttr_sds_calnt b bm cl
          (bitmapAttrPart_names b bm hbm "calibrated_nt" rfl)
          (classAttrPart_names b cl hcl "calibrated_nt" rfl)]
        exact decide_eq_true_iff

/-- C6 witness: the presence rules applied to a band with saturate value,
scale factor and calibrated noise present and additive offset absent. -/
theorem sds_attr_optional_presence_witness :
    write_sds_attributes bPlain = .ok (sdsAttrList bPlain [] []) ∧
      ((hasAttr (sdsAttrList bPlain [] []) "_SaturateValue" = true ↔
        bPlain.saturate_value ≠ ESPA_INT_META_FILL) ∧
       (hasAttr (sdsAttrList bPlain [] []) "scale_factor" = true ↔
        bPlain.scale_factor ≠ (ESPA_INT_META_FILL : ℚ)) ∧
       (hasAttr (sdsAttrList bPlain [] []) "add_offset" = true ↔
        bPlain.add_offset ≠ (ESPA_INT_META_FILL : ℚ)) ∧
       (hasAttr (sdsAttrList bPlain [] []) "calibrated_nt" = true ↔
        ESPA_EPSILON < fabs (bPlain.calibrated_nt - ESPA_FLOAT_META_FILL))) :=
  ⟨write_sds_no_desc bPlain rfl rfl,
   sds_attr_optional_presence bPlain (sdsAttrList bPlain [] [])
     (write_sds_no_desc bPlain rfl rfl)⟩
